import Mathlib

/-!
Verification of the client-side control protocol of `AudioEffect`
(`media/libaudioclient/include/media/AudioEffect.h`).

The repository ships the header only: the method bodies of `AudioEffect`
itself live in `AudioEffect.cpp`, which is not part of this tree.  The
inline pieces that ARE in the header (the `EffectClient` relay, the data
member initializers, the `id()` and `priority()` getters) are embedded
directly from that source; every other operation is modelled from the
design specification (lifecycle state machine, control arbitration,
enable/disable caching, staging-buffer deferred set/commit, event
dispatch), as indicated by each definition's doc comment.

Machine integers of the source (`status_t`, `int32_t`) are embedded as an
enumerated status type and `Int`; byte payloads as `List Nat`; the binder
weak pointers (`wp<...>`) as non-owning optional references resolved at
dispatch time.
-/

namespace AudioEffectModel

/-- Return codes used by the `AudioEffect` API (the subset of
`utils/Errors.h` values named by the header's doc comments).  The spec
taxonomy maps onto them as: InvalidState = `INVALID_OPERATION`,
ResourceExhausted = `NO_MEMORY`, Disconnected = `DEAD_OBJECT`,
InvalidArgument = `BAD_VALUE`, Unavailable = `NO_INIT`,
NotFound = `NAME_NOT_FOUND`, PermissionDenied = `PERMISSION_DENIED`. -/
inductive Status where
  | NO_ERROR
  | ALREADY_EXISTS
  | INVALID_OPERATION
  | BAD_VALUE
  | NO_INIT
  | NO_MEMORY
  | DEAD_OBJECT
  | PERMISSION_DENIED
  | NAME_NOT_FOUND
deriving DecidableEq, Repr

/-- Lifecycle states of an effect handle, per spec section 4.1:
`UNINITIALIZED -> (CONTROLLING | NON_CONTROLLING | FAILED) -> RELEASED`. -/
inductive LifecycleState where
  | UNINITIALIZED
  | CONTROLLING
  | NON_CONTROLLING
  | FAILED
  | RELEASED
deriving DecidableEq, Repr

/-- Outcome delivered by the remote broker (AudioFlinger) to
`createEffect`: control granted, control denied to a higher-priority
incumbent (not an error), or one of the failure classes of spec
section 4.1. -/
inductive BrokerResult where
  | granted
  | denied
  | permissionDenied
  | unavailable
  | notFound
deriving DecidableEq, Repr

/-- Reply of the remote engine to a forwarded command: accepted, rejected
(invalid identifier or value), or transport lost. -/
inductive EngineReply where
  | ok
  | badValue
  | dead
deriving DecidableEq, Repr

/-- One staged parameter write (`effect_param_t`): a parameter identifier
and an opaque value payload. -/
structure ParamEntry where
  ident : Nat
  value : List Nat
deriving DecidableEq, Repr

/-- Modelled from the spec: staged entries are length-prefixed records
(identifier word + length prefix + payload bytes); the exact rounding of
the missing `AudioEffect.cpp` serialization is not in the tree. -/
def ParamEntry.serializedSize (e : ParamEntry) : Nat :=
  2 + e.value.length

/-- The shared-memory staging region (`effect_param_cblk_t`): a fixed
capacity and the FIFO list of entries staged since the last commit. -/
structure StagingBuffer where
  capacity : Nat
  entries : List ParamEntry
deriving DecidableEq, Repr

/-- Current write offset of the staging buffer: total serialized size of
the pending entries. -/
def StagingBuffer.writeOffset (b : StagingBuffer) : Nat :=
  (b.entries.map ParamEntry.serializedSize).sum

/-- Typed events delivered to the registered observer
(`IAudioEffectCallback`), one per `event_type` of the header. -/
inductive Event where
  | controlStatus (granted : Bool)
  | enableStatus (enabled : Bool)
  | parameterChanged (payload : List Nat)
  | error (code : Status)
  | framesProcessed (count : Int)
deriving DecidableEq, Repr

/-- The remote effect engine as observable from the client: its enabled
flag and the log of parameter entries it has applied, in application
order. -/
structure Engine where
  enabled : Bool
  appliedLog : List ParamEntry
deriving DecidableEq, Repr

/-- Client-side state of one `AudioEffect` handle.  `mStatus`, `mProbe`,
`mEnabled`, `mPriority`, `mId` are the data members declared at
`AudioEffect.h` lines 600-613; `state` is the spec's derived lifecycle
state; `mCallbackAlive` records whether the weak `mCallback` observer
reference still resolves; `hasConnection` whether `mIEffect` is a live
remote connection; `cblk` the deferred-parameter staging buffer. -/
structure AudioEffect where
  state : LifecycleState
  mStatus : Status
  mProbe : Bool
  mEnabled : Bool
  mPriority : Int
  mId : Int
  mCallbackAlive : Bool
  hasConnection : Bool
  cblk : StagingBuffer
deriving DecidableEq, Repr

/-- A freshly constructed handle, from the member initializers at
`AudioEffect.h` lines 600-613: `mEnabled = false`, `mPriority = 0`,
`mStatus = NO_INIT`, `mProbe = false`, `mId = -1`, `mCblk = nullptr`
(no staged entries, capacity fixed by the shared-memory block size). -/
def AudioEffect.fresh : AudioEffect :=
  { state := LifecycleState.UNINITIALIZED
    mStatus := Status.NO_INIT
    mProbe := false
    mEnabled := false
    mPriority := 0
    mId := -1
    mCallbackAlive := false
    hasConnection := false
    cblk := { capacity := 1024, entries := [] } }

/-- Source getter `AudioEffect.h:481` (body in the missing cpp; the header
doc states it returns `NO_ERROR`, `ALREADY_EXISTS` or `NO_INIT`, the
retained initialization status). -/
def AudioEffect.initCheck (h : AudioEffect) : Status :=
  h.mStatus

/-- Source getter `AudioEffect.h:489`: `int32_t id() const { return mId; }`. -/
def AudioEffect.id (h : AudioEffect) : Int :=
  h.mId

/-- Source getter `AudioEffect.h:497`:
`int32_t priority() const { return mPriority; }`. -/
def AudioEffect.priority (h : AudioEffect) : Int :=
  h.mPriority

/-- Modelled from the spec: `getEnabled` (declared `AudioEffect.h:511`,
body in the missing cpp) returns the last known cached enable state and
never contacts the remote engine: it reads only the handle. -/
def AudioEffect.getEnabled (h : AudioEffect) : Bool :=
  h.mEnabled

/-- Modelled from the spec: `AudioEffect::set` (declared
`AudioEffect.h:427-435`, body in the missing cpp).  A second call on an
already-initialized handle fails with `INVALID_OPERATION`; with both
identifiers null it fails with `BAD_VALUE`; otherwise the broker outcome
decides: granted puts the handle in `CONTROLLING`, denied in
`NON_CONTROLLING` with `ALREADY_EXISTS` (not an error), and the failure
classes return their code leaving the handle uninitialized.  In probe
mode no remote connection is created (`mIEffect` stays null). -/
def AudioEffect.set (h : AudioEffect) (typeNull uuidNull : Bool) (priority0 : Int)
    (hasCb : Bool) (probe : Bool) (newId : Int) (r : BrokerResult) :
    Status × AudioEffect :=
  if h.state = LifecycleState.UNINITIALIZED then
    if typeNull && uuidNull then (Status.BAD_VALUE, h)
    else
      match r with
      | BrokerResult.granted =>
          (Status.NO_ERROR,
            { h with state := LifecycleState.CONTROLLING, mStatus := Status.NO_ERROR,
                     mProbe := probe, mPriority := priority0, mId := newId,
                     mCallbackAlive := hasCb, hasConnection := !probe })
      | BrokerResult.denied =>
          (Status.ALREADY_EXISTS,
            { h with state := LifecycleState.NON_CONTROLLING,
                     mStatus := Status.ALREADY_EXISTS,
                     mProbe := probe, mPriority := priority0, mId := newId,
                     mCallbackAlive := hasCb, hasConnection := !probe })
      | BrokerResult.permissionDenied => (Status.PERMISSION_DENIED, h)
      | BrokerResult.unavailable => (Status.NO_INIT, h)
      | BrokerResult.notFound => (Status.NAME_NOT_FOUND, h)
  else (Status.INVALID_OPERATION, h)

/-- Modelled from the spec: `release` (the destructor contract,
`AudioEffect.h:387-391`, body in the missing cpp).  Valid from any
initialized state, idempotent, transitions to `RELEASED`, drops the
remote connection; beyond that it is purely local cleanup. -/
def AudioEffect.release (h : AudioEffect) : Status × AudioEffect :=
  if h.state = LifecycleState.RELEASED then (Status.NO_ERROR, h)
  else
    (Status.NO_ERROR,
      { h with state := LifecycleState.RELEASED, hasConnection := false })

/-- Modelled from the spec: `setEnabled` (declared `AudioEffect.h:510`,
body in the missing cpp).  Probe handles no-op with success (header
lines 416-419: in probe mode all actions besides getters are no ops);
a `FAILED` handle returns `DEAD_OBJECT`; a handle that is not
`CONTROLLING`, or a redundant request equal to the cached state, fails
with `INVALID_OPERATION`.  On success the cache and the engine flag are
updated and an enable-status event is broadcast to every handle attached
to the instance (returned as the optional broadcast payload). -/
def AudioEffect.setEnabled (h : AudioEffect) (enabled : Bool) (eng : Engine)
    (rep : EngineReply) : Status × AudioEffect × Engine × Option Bool :=
  if h.mProbe then (Status.NO_ERROR, h, eng, none)
  else if h.state = LifecycleState.FAILED then (Status.DEAD_OBJECT, h, eng, none)
  else if h.state = LifecycleState.CONTROLLING then
    if h.mEnabled = enabled then (Status.INVALID_OPERATION, h, eng, none)
    else
      match rep with
      | EngineReply.ok =>
          (Status.NO_ERROR, { h with mEnabled := enabled },
            { eng with enabled := enabled }, some enabled)
      | EngineReply.badValue => (Status.BAD_VALUE, h, eng, none)
      | EngineReply.dead => (Status.DEAD_OBJECT, h, eng, none)
  else (Status.INVALID_OPERATION, h, eng, none)

/-- Modelled from the spec: `setParameter` (declared `AudioEffect.h:524`,
body in the missing cpp): immediate form, one entry staged and committed
in a single remote call, gated like every mutating operation; it does not
disturb entries already staged by deferred calls. -/
def AudioEffect.setParameter (h : AudioEffect) (e : ParamEntry) (eng : Engine)
    (rep : EngineReply) : Status × AudioEffect × Engine :=
  if h.mProbe then (Status.NO_ERROR, h, eng)
  else if h.state = LifecycleState.FAILED then (Status.DEAD_OBJECT, h, eng)
  else if h.state = LifecycleState.CONTROLLING then
    match rep with
    | EngineReply.ok =>
        (Status.NO_ERROR, h, { eng with appliedLog := eng.appliedLog ++ [e] })
    | EngineReply.badValue => (Status.BAD_VALUE, h, eng)
    | EngineReply.dead => (Status.DEAD_OBJECT, h, eng)
  else (Status.INVALID_OPERATION, h, eng)

/-- Modelled from the spec: `setParameterDeferred` (declared
`AudioEffect.h:541`, body in the missing cpp): serializes the entry into
the staging buffer at the current write offset; fails with `NO_MEMORY`
when it does not fit in the remaining capacity (the buffer is never
grown or compacted); purely local, never contacts the engine. -/
def AudioEffect.setParameterDeferred (h : AudioEffect) (e : ParamEntry) :
    Status × AudioEffect :=
  if h.mProbe then (Status.NO_ERROR, h)
  else if h.state = LifecycleState.FAILED then (Status.DEAD_OBJECT, h)
  else if h.state = LifecycleState.CONTROLLING then
    if h.cblk.capacity < h.cblk.writeOffset + e.serializedSize then
      (Status.NO_MEMORY, h)
    else
      (Status.NO_ERROR,
        { h with cblk := { h.cblk with entries := h.cblk.entries ++ [e] } })
  else (Status.INVALID_OPERATION, h)

/-- Modelled from the spec: `setParameterCommit` (declared
`AudioEffect.h:555`, body in the missing cpp): with nothing staged it
fails with `INVALID_OPERATION`; otherwise the whole staged region is sent
as one batch which the engine applies in staging order; on success the
buffer resets to empty; on rejection (`BAD_VALUE`) the staged entries are
left intact for a retry; on transport loss the handle transitions to
`FAILED` and the buffer is discarded. -/
def AudioEffect.setParameterCommit (h : AudioEffect) (eng : Engine)
    (rep : EngineReply) : Status × AudioEffect × Engine :=
  if h.mProbe then (Status.NO_ERROR, h, eng)
  else if h.state = LifecycleState.FAILED then (Status.DEAD_OBJECT, h, eng)
  else if h.state = LifecycleState.CONTROLLING then
    if h.cblk.entries = [] then (Status.INVALID_OPERATION, h, eng)
    else
      match rep with
      | EngineReply.ok =>
          (Status.NO_ERROR,
            { h with cblk := { h.cblk with entries := [] } },
            { eng with appliedLog := eng.appliedLog ++ h.cblk.entries })
      | EngineReply.badValue => (Status.BAD_VALUE, h, eng)
      | EngineReply.dead =>
          (Status.DEAD_OBJECT,
            { h with state := LifecycleState.FAILED, mStatus := Status.DEAD_OBJECT,
                     hasConnection := false,
                     cblk := { h.cblk with entries := [] } },
            eng)
  else (Status.INVALID_OPERATION, h, eng)

/-- Modelled from the spec: `getParameter` (declared `AudioEffect.h:569`,
body in the missing cpp): read-only, valid regardless of control status;
on a probe handle it fails with `INVALID_OPERATION` (no connection
exists); a `FAILED` handle returns `DEAD_OBJECT`; with no live connection
(`UNINITIALIZED`, `RELEASED`) it fails with `INVALID_OPERATION`. -/
def AudioEffect.getParameter (h : AudioEffect) (e : ParamEntry) : Status :=
  if h.mProbe then Status.INVALID_OPERATION
  else if h.state = LifecycleState.FAILED then Status.DEAD_OBJECT
  else if h.state = LifecycleState.CONTROLLING ∨
          h.state = LifecycleState.NON_CONTROLLING then Status.NO_ERROR
  else Status.INVALID_OPERATION

/-- Modelled from the spec: raw `command` (declared
`AudioEffect.h:575-579`, body in the missing cpp): opaque escape hatch
with the same control-status gating as `setParameter`. -/
def AudioEffect.command (h : AudioEffect) (cmdCode : Nat) (cmdData : List Nat)
    (rep : EngineReply) : Status × AudioEffect :=
  if h.mProbe then (Status.NO_ERROR, h)
  else if h.state = LifecycleState.FAILED then (Status.DEAD_OBJECT, h)
  else if h.state = LifecycleState.CONTROLLING then
    match rep with
    | EngineReply.ok => (Status.NO_ERROR, h)
    | EngineReply.badValue => (Status.BAD_VALUE, h)
    | EngineReply.dead => (Status.DEAD_OBJECT, h)
  else (Status.INVALID_OPERATION, h)

/-- Modelled from the spec: the `IEffectClient` handler
`controlStatusChanged` (declared `AudioEffect.h:617`, body in the missing
cpp): a granted event promotes a `NON_CONTROLLING` handle to
`CONTROLLING`, a stolen event demotes a `CONTROLLING` one; the observer
is notified through the weak callback when it still resolves. -/
def AudioEffect.controlStatusChanged (h : AudioEffect) (granted : Bool) :
    AudioEffect × List Event :=
  (if granted then
     if h.state = LifecycleState.NON_CONTROLLING then
       { h with state := LifecycleState.CONTROLLING, mStatus := Status.NO_ERROR }
     else h
   else
     if h.state = LifecycleState.CONTROLLING then
       { h with state := LifecycleState.NON_CONTROLLING,
                mStatus := Status.ALREADY_EXISTS }
     else h,
   if h.mCallbackAlive then [Event.controlStatus granted] else [])

/-- Modelled from the spec: the `IEffectClient` handler
`enableStatusChanged` (declared `AudioEffect.h:618`, body in the missing
cpp): updates the cached enable state and notifies the observer when the
weak callback still resolves. -/
def AudioEffect.enableStatusChanged (h : AudioEffect) (enabled : Bool) :
    AudioEffect × List Event :=
  ({ h with mEnabled := enabled },
   if h.mCallbackAlive then [Event.enableStatus enabled] else [])

/-- Modelled from the spec: the `IEffectClient` handler `commandExecuted`
(declared `AudioEffect.h:619-621`, body in the missing cpp): translates a
parameter-change command executed by another handle into a
parameter-changed observer event; no handle state is cached. -/
def AudioEffect.commandExecuted (h : AudioEffect) (cmdCode : Int)
    (cmdData replyData : List Nat) : AudioEffect × List Event :=
  (h, if h.mCallbackAlive then [Event.parameterChanged cmdData] else [])

/-- Modelled from the spec: the `IEffectClient` handler `framesProcessed`
(declared `AudioEffect.h:622`, body in the missing cpp): forwards the
frame count to the observer; no handle state is cached. -/
def AudioEffect.framesProcessed (h : AudioEffect) (frames : Int) :
    AudioEffect × List Event :=
  (h, if h.mCallbackAlive then [Event.framesProcessed frames] else [])

/-- Modelled from the spec: `AudioEffect::binderDied` (declared
`AudioEffect.h:679`, body in the missing cpp): abrupt remote loss forces
any state except `RELEASED` into `FAILED`, drops the connection, discards
the staging buffer, and delivers exactly one error event with the
disconnection code `DEAD_OBJECT` to the observer when it still
resolves. -/
def AudioEffect.binderDied (h : AudioEffect) : AudioEffect × List Event :=
  if h.state = LifecycleState.RELEASED then (h, [])
  else
    ({ h with state := LifecycleState.FAILED, mStatus := Status.DEAD_OBJECT,
              hasConnection := false,
              cblk := { h.cblk with entries := [] } },
     if h.mCallbackAlive then [Event.error Status.DEAD_OBJECT] else [])

/-- Delivery of a broadcast enable-status event to every handle attached
to the same effect instance: each one runs its `enableStatusChanged`
handler. -/
def deliverEnableStatus (enabled : Bool) (hs : List AudioEffect) :
    List AudioEffect :=
  hs.map (fun h => (h.enableStatusChanged enabled).1)

/-- Result type of a binder transaction as seen by the event sender:
the relay either reports success (`binder::Status::ok()`) or an
exception. -/
inductive BinderStatus where
  | ok
  | exceptionRaised
deriving DecidableEq, Repr

/-- The `EffectClient` relay (`AudioEffect.h:627-677`): it holds only a
weak reference to its `AudioEffect` (`wp<AudioEffect> mEffect`), embedded
as an optional value that is `none` once the handle is destroyed. -/
structure EffectClient where
  mEffect : Option AudioEffect
deriving DecidableEq, Repr

/-- Relay of a control-status event, from `AudioEffect.h:635-641`: promote
the weak reference; if it resolves, forward to the handle; either way
return `binder::Status::ok()`. -/
def EffectClient.controlStatusChanged (c : EffectClient) (granted : Bool) :
    BinderStatus × EffectClient × List Event :=
  match c.mEffect with
  | none => (BinderStatus.ok, c, [])
  | some eff =>
      let r := eff.controlStatusChanged granted
      (BinderStatus.ok, { mEffect := some r.1 }, r.2)

/-- Relay of an enable-status event, from `AudioEffect.h:642-648`. -/
def EffectClient.enableStatusChanged (c : EffectClient) (enabled : Bool) :
    BinderStatus × EffectClient × List Event :=
  match c.mEffect with
  | none => (BinderStatus.ok, c, [])
  | some eff =>
      let r := eff.enableStatusChanged enabled
      (BinderStatus.ok, { mEffect := some r.1 }, r.2)

/-- Relay of a command-executed event, from `AudioEffect.h:649-657`. -/
def EffectClient.commandExecuted (c : EffectClient) (cmdCode : Int)
    (cmdData replyData : List Nat) : BinderStatus × EffectClient × List Event :=
  match c.mEffect with
  | none => (BinderStatus.ok, c, [])
  | some eff =>
      let r := eff.commandExecuted cmdCode cmdData replyData
      (BinderStatus.ok, { mEffect := some r.1 }, r.2)

/-- Relay of a frames-processed event, from `AudioEffect.h:658-664`. -/
def EffectClient.framesProcessed (c : EffectClient) (frames : Int) :
    BinderStatus × EffectClient × List Event :=
  match c.mEffect with
  | none => (BinderStatus.ok, c, [])
  | some eff =>
      let r := eff.framesProcessed frames
      (BinderStatus.ok, { mEffect := some r.1 }, r.2)

/-- Relay of binder death, from `AudioEffect.h:668-673`: promote the weak
reference; if it resolves, forward to the handle; no status is returned
(`void`). -/
def EffectClient.binderDied (c : EffectClient) : EffectClient × List Event :=
  match c.mEffect with
  | none => (c, [])
  | some eff =>
      let r := eff.binderDied
      ({ mEffect := some r.1 }, r.2)

/-- One caller-visible or event-driven operation on a handle, used to
state which operations may change cached state. -/
inductive Op where
  | opSet (typeNull uuidNull : Bool) (priority0 : Int) (hasCb probe : Bool)
      (newId : Int) (r : BrokerResult)
  | opSetEnabled (enabled : Bool) (rep : EngineReply)
  | opSetParameter (e : ParamEntry) (rep : EngineReply)
  | opSetParameterDeferred (e : ParamEntry)
  | opSetParameterCommit (rep : EngineReply)
  | opCommand (code : Nat) (data : List Nat) (rep : EngineReply)
  | opRelease
  | opBinderDied
  | opControlStatusChanged (granted : Bool)
  | opEnableStatusChanged (enabled : Bool)
  | opCommandExecuted (code : Int) (data reply : List Nat)
  | opFramesProcessed (n : Int)
deriving DecidableEq, Repr

/-- The handle after one operation (read-only accessors such as
`getEnabled`, `getParameter`, `initCheck`, `id`, `priority` do not
appear: they return values without producing a new handle). -/
def step (h : AudioEffect) (op : Op) (eng : Engine) : AudioEffect :=
  match op with
  | Op.opSet tn un p cb pr nid r => (h.set tn un p cb pr nid r).2
  | Op.opSetEnabled b rep => (h.setEnabled b eng rep).2.1
  | Op.opSetParameter e rep => (h.setParameter e eng rep).2.1
  | Op.opSetParameterDeferred e => (h.setParameterDeferred e).2
  | Op.opSetParameterCommit rep => (h.setParameterCommit eng rep).2.1
  | Op.opCommand code d rep => (h.command code d rep).2
  | Op.opRelease => (h.release).2
  | Op.opBinderDied => (h.binderDied).1
  | Op.opControlStatusChanged g => (h.controlStatusChanged g).1
  | Op.opEnableStatusChanged b => (h.enableStatusChanged b).1
  | Op.opCommandExecuted code d rp => (h.commandExecuted code d rp).1
  | Op.opFramesProcessed n => (h.framesProcessed n).1

/-- An engine with default flag and empty application log, used by the
concrete witnesses. -/
def eng0 : Engine :=
  { enabled := false, appliedLog := [] }

/-- A concrete non-probe handle holding control, with a small staging
buffer. -/
def ctrlHandle : AudioEffect :=
  { state := LifecycleState.CONTROLLING
    mStatus := Status.NO_ERROR
    mProbe := false
    mEnabled := false
    mPriority := 1
    mId := 5
    mCallbackAlive := true
    hasConnection := true
    cblk := { capacity := 8, entries := [] } }

/-- The controlling handle with one staged entry of serialized size 3. -/
def stagedHandle : AudioEffect :=
  { ctrlHandle with cblk := { capacity := 8, entries := [{ ident := 1, value := [7] }] } }

/-- A probe handle that was denied control (`NON_CONTROLLING`). -/
def probeHandle : AudioEffect :=
  { AudioEffect.fresh with
      state := LifecycleState.NON_CONTROLLING
      mStatus := Status.ALREADY_EXISTS
      mProbe := true }

/-- A non-probe handle whose remote connection has been lost. -/
def failedHandle : AudioEffect :=
  { ctrlHandle with
      state := LifecycleState.FAILED
      mStatus := Status.DEAD_OBJECT
      hasConnection := false }

/-! Helper lemmas: which operations can touch the cached enable state. -/

theorem set_preserves_enabled (h : AudioEffect) (tn un : Bool) (p : Int)
    (cb probe : Bool) (nid : Int) (r : BrokerResult) :
    ((h.set tn un p cb probe nid r).2).mEnabled = h.mEnabled := by
  unfold AudioEffect.set
  split
  · split
    · rfl
    · cases r <;> rfl
  · rfl

theorem setParameter_preserves_handle (h : AudioEffect) (e : ParamEntry)
    (eng : Engine) (rep : EngineReply) :
    ((h.setParameter e eng rep).2.1) = h := by
  unfold AudioEffect.setParameter
  split
  · rfl
  · split
    · rfl
    · split
      · cases rep <;> rfl
      · rfl

theorem setParameterDeferred_preserves_enabled (h : AudioEffect) (e : ParamEntry) :
    ((h.setParameterDeferred e).2).mEnabled = h.mEnabled := by
  unfold AudioEffect.setParameterDeferred
  split
  · rfl
  · split
    · rfl
    · split
      · split <;> rfl
      · rfl

theorem setParameterCommit_preserves_enabled (h : AudioEffect) (eng : Engine)
    (rep : EngineReply) :
    ((h.setParameterCommit eng rep).2.1).mEnabled = h.mEnabled := by
  unfold AudioEffect.setParameterCommit
  split
  · rfl
  · split
    · rfl
    · split
      · split
        · rfl
        · cases rep <;> rfl
      · rfl

theorem command_preserves_handle (h : AudioEffect) (code : Nat) (d : List Nat)
    (rep : EngineReply) :
    ((h.command code d rep).2) = h := by
  unfold AudioEffect.command
  split
  · rfl
  · split
    · rfl
    · split
      · cases rep <;> rfl
      · rfl

theorem release_preserves_enabled (h : AudioEffect) :
    ((h.release).2).mEnabled = h.mEnabled := by
  unfold AudioEffect.release
  split <;> rfl

theorem binderDied_preserves_enabled (h : AudioEffect) :
    ((h.binderDied).1).mEnabled = h.mEnabled := by
  unfold AudioEffect.binderDied
  split <;> rfl

theorem controlStatusChanged_preserves_enabled (h : AudioEffect) (g : Bool) :
    ((h.controlStatusChanged g).1).mEnabled = h.mEnabled := by
  unfold AudioEffect.controlStatusChanged
  split <;> split <;> rfl

theorem deliver_sets_cache (b : Bool) (hs : List AudioEffect) :
    (deliverEnableStatus b hs).map AudioEffect.mEnabled = hs.map (fun _ => b) := by
  induction hs with
  | nil => rfl
  | cons x xs ih =>
      simpa [deliverEnableStatus, AudioEffect.enableStatusChanged] using
        congrArg (List.cons b) ih

theorem setEnabled_cache_change (h : AudioEffect) (b : Bool) (eng : Engine)
    (rep : EngineReply)
    (hch : ((h.setEnabled b eng rep).2.1).mEnabled ≠ h.mEnabled) :
    (h.setEnabled b eng rep).1 = Status.NO_ERROR ∧
    ((h.setEnabled b eng rep).2.1).mEnabled = b := by
  by_cases hpb : h.mProbe = true
  · simp [AudioEffect.setEnabled, hpb] at hch
  · by_cases hf : h.state = LifecycleState.FAILED
    · simp [AudioEffect.setEnabled, hpb, hf] at hch
    · by_cases hc : h.state = LifecycleState.CONTROLLING
      · by_cases he : h.mEnabled = b
        · simp [AudioEffect.setEnabled, hpb, hf, hc, he] at hch
        · cases rep
          · simp [AudioEffect.setEnabled, hpb, hf, hc, he]
          · simp [AudioEffect.setEnabled, hpb, hf, hc, he] at hch
          · simp [AudioEffect.setEnabled, hpb, hf, hc, he] at hch
      · simp [AudioEffect.setEnabled, hpb, hf, hc] at hch

/-! Claim theorems. -/

/-- Claim C10: a freshly constructed `AudioEffect`, before any
initialization call, has `initCheck() = NO_INIT`, `getEnabled() = false`,
`id() = -1` and `priority() = 0` (member initializers of
`AudioEffect.h:600-613`). -/
theorem fresh_handle_defaults :
    AudioEffect.fresh.initCheck = Status.NO_INIT ∧
    AudioEffect.fresh.getEnabled = false ∧
    AudioEffect.fresh.id = -1 ∧
    AudioEffect.fresh.priority = 0 :=
  ⟨rfl, rfl, rfl, rfl⟩

/-- Claim C7: on a handle whose initialization has already completed
(`CONTROLLING`, `NON_CONTROLLING` or `FAILED`), a second `set` call fails
with `INVALID_OPERATION` and leaves the handle unchanged. -/
theorem set_twice_invalid (h : AudioEffect) (tn un : Bool) (p : Int)
    (cb probe : Bool) (nid : Int) (r : BrokerResult)
    (hs : h.state = LifecycleState.CONTROLLING ∨
          h.state = LifecycleState.NON_CONTROLLING ∨
          h.state = LifecycleState.FAILED) :
    h.set tn un p cb probe nid r = (Status.INVALID_OPERATION, h) := by
  rcases hs with hs | hs | hs <;> simp [AudioEffect.set, hs]

/-- Witness for C7 at a concrete controlling handle. -/
theorem set_twice_invalid_witness :
    (ctrlHandle.state = LifecycleState.CONTROLLING ∨
     ctrlHandle.state = LifecycleState.NON_CONTROLLING ∨
     ctrlHandle.state = LifecycleState.FAILED) ∧
    ctrlHandle.set false false 0 false false 9 BrokerResult.granted =
      (Status.INVALID_OPERATION, ctrlHandle) :=
  ⟨Or.inl rfl,
   set_twice_invalid ctrlHandle false false 0 false false 9 BrokerResult.granted
     (Or.inl rfl)⟩

/-- Claim C8: `release()` from `CONTROLLING`, `NON_CONTROLLING` or
`FAILED` returns success and transitions to `RELEASED`; a second
`release()` on the released handle also returns success and changes
nothing. -/
theorem release_idempotent (h : AudioEffect)
    (hs : h.state = LifecycleState.CONTROLLING ∨
          h.state = LifecycleState.NON_CONTROLLING ∨
          h.state = LifecycleState.FAILED) :
    (h.release).1 = Status.NO_ERROR ∧
    ((h.release).2).state = LifecycleState.RELEASED ∧
    ((h.release).2).release = (Status.NO_ERROR, (h.release).2) := by
  rcases hs with hs | hs | hs <;> simp [AudioEffect.release, hs]

/-- Witness for C8 at a concrete controlling handle. -/
theorem release_idempotent_witness :
    (ctrlHandle.state = LifecycleState.CONTROLLING ∨
     ctrlHandle.state = LifecycleState.NON_CONTROLLING ∨
     ctrlHandle.state = LifecycleState.FAILED) ∧
    ((ctrlHandle.release).1 = Status.NO_ERROR ∧
     ((ctrlHandle.release).2).state = LifecycleState.RELEASED ∧
     ((ctrlHandle.release).2).release = (Status.NO_ERROR, (ctrlHandle.release).2)) :=
  ⟨Or.inl rfl, release_idempotent ctrlHandle (Or.inl rfl)⟩

/-- Claim C4: on a `CONTROLLING` (non-probe) handle, staging an entry
whose serialized size exceeds the remaining capacity fails with
`NO_MEMORY` and returns the handle unchanged: the capacity is not grown
and the previously staged entries are untouched (and, the operation being
purely local, nothing reaches the engine). -/
theorem deferred_overflow (h : AudioEffect) (e : ParamEntry)
    (hc : h.state = LifecycleState.CONTROLLING) (hp : h.mProbe = false)
    (hov : h.cblk.capacity < h.cblk.writeOffset + e.serializedSize) :
    h.setParameterDeferred e = (Status.NO_MEMORY, h) := by
  simp [AudioEffect.setParameterDeferred, hc, hp, hov]

/-- Witness for C4: one staged entry of size 3 in a buffer of capacity 8,
then an entry of size 6 that does not fit. -/
theorem deferred_overflow_witness :
    stagedHandle.state = LifecycleState.CONTROLLING ∧
    stagedHandle.mProbe = false ∧
    stagedHandle.cblk.capacity <
      stagedHandle.cblk.writeOffset +
        ParamEntry.serializedSize { ident := 2, value := [0, 0, 0, 0] } ∧
    stagedHandle.setParameterDeferred { ident := 2, value := [0, 0, 0, 0] } =
      (Status.NO_MEMORY, stagedHandle) :=
  ⟨rfl, rfl, by decide,
   deferred_overflow stagedHandle { ident := 2, value := [0, 0, 0, 0] } rfl rfl
     (by decide)⟩

/-- Claim C2: on a `CONTROLLING` (non-probe) handle with at least one
staged entry, commit is atomic: on success the whole staged region is
applied by the engine as one batch in staging order (FIFO: `entries` is
built by appending, see `setParameterDeferred`) and the buffer resets to
empty with its capacity intact; on a failure other than loss of the
remote connection (engine rejection) handle, buffer and engine are all
left untouched for a retry; with nothing staged the call fails with
`INVALID_OPERATION`. -/
theorem commit_atomic (h : AudioEffect) (eng : Engine) (rep : EngineReply)
    (hc : h.state = LifecycleState.CONTROLLING) (hp : h.mProbe = false) :
    (h.cblk.entries ≠ [] →
      (h.setParameterCommit eng EngineReply.ok).1 = Status.NO_ERROR ∧
      ((h.setParameterCommit eng EngineReply.ok).2.1).cblk.entries = [] ∧
      ((h.setParameterCommit eng EngineReply.ok).2.1).cblk.capacity =
        h.cblk.capacity ∧
      ((h.setParameterCommit eng EngineReply.ok).2.2).appliedLog =
        eng.appliedLog ++ h.cblk.entries ∧
      h.setParameterCommit eng EngineReply.badValue = (Status.BAD_VALUE, h, eng)) ∧
    (h.cblk.entries = [] →
      h.setParameterCommit eng rep = (Status.INVALID_OPERATION, h, eng)) := by
  constructor
  · intro hne
    simp [AudioEffect.setParameterCommit, hc, hp, hne]
  · intro he
    simp [AudioEffect.setParameterCommit, hc, hp, he]

/-- Witness for C2 at a handle with one staged entry. -/
theorem commit_atomic_witness :
    stagedHandle.state = LifecycleState.CONTROLLING ∧
    stagedHandle.mProbe = false ∧
    ((stagedHandle.cblk.entries ≠ [] →
      (stagedHandle.setParameterCommit eng0 EngineReply.ok).1 = Status.NO_ERROR ∧
      ((stagedHandle.setParameterCommit eng0 EngineReply.ok).2.1).cblk.entries = [] ∧
      ((stagedHandle.setParameterCommit eng0 EngineReply.ok).2.1).cblk.capacity =
        stagedHandle.cblk.capacity ∧
      ((stagedHandle.setParameterCommit eng0 EngineReply.ok).2.2).appliedLog =
        eng0.appliedLog ++ stagedHandle.cblk.entries ∧
      stagedHandle.setParameterCommit eng0 EngineReply.badValue =
        (Status.BAD_VALUE, stagedHandle, eng0)) ∧
     (stagedHandle.cblk.entries = [] →
      stagedHandle.setParameterCommit eng0 EngineReply.ok =
        (Status.INVALID_OPERATION, stagedHandle, eng0))) :=
  ⟨rfl, rfl, commit_atomic stagedHandle eng0 EngineReply.ok rfl rfl⟩

/-- Claim C1: on a handle initialized with `probe = true` (given a
reachable broker that grants or denies control), initialization succeeds
(`NO_ERROR` or `ALREADY_EXISTS`) without creating a remote connection;
every mutating operation (`setEnabled`, `setParameter`,
`setParameterDeferred`, `setParameterCommit`, `command`) is a no-op
returning success; and `getParameter` fails with `INVALID_OPERATION`
because no live connection exists. -/
theorem probe_contract (h : AudioEffect) (tn un : Bool) (p : Int) (cb : Bool)
    (nid : Int) (r : BrokerResult) (b : Bool) (e1 e2 e3 : ParamEntry)
    (eng : Engine) (rep : EngineReply) (code : Nat) (d : List Nat)
    (h0 : h.state = LifecycleState.UNINITIALIZED)
    (hnn : (tn && un) = false)
    (hr : r = BrokerResult.granted ∨ r = BrokerResult.denied) :
    ((h.set tn un p cb true nid r).1 = Status.NO_ERROR ∨
     (h.set tn un p cb true nid r).1 = Status.ALREADY_EXISTS) ∧
    ((h.set tn un p cb true nid r).2).hasConnection = false ∧
    ((h.set tn un p cb true nid r).2).setEnabled b eng rep =
      (Status.NO_ERROR, (h.set tn un p cb true nid r).2, eng, none) ∧
    ((h.set tn un p cb true nid r).2).setParameter e1 eng rep =
      (Status.NO_ERROR, (h.set tn un p cb true nid r).2, eng) ∧
    ((h.set tn un p cb true nid r).2).setParameterDeferred e2 =
      (Status.NO_ERROR, (h.set tn un p cb true nid r).2) ∧
    ((h.set tn un p cb true nid r).2).setParameterCommit eng rep =
      (Status.NO_ERROR, (h.set tn un p cb true nid r).2, eng) ∧
    ((h.set tn un p cb true nid r).2).command code d rep =
      (Status.NO_ERROR, (h.set tn un p cb true nid r).2) ∧
    ((h.set tn un p cb true nid r).2).getParameter e3 =
      Status.INVALID_OPERATION := by
  rcases hr with hr | hr <;> subst hr <;>
    simp [AudioEffect.set, h0, hnn, AudioEffect.setEnabled, AudioEffect.setParameter,
      AudioEffect.setParameterDeferred, AudioEffect.setParameterCommit,
      AudioEffect.command, AudioEffect.getParameter]

/-- Witness for C1 at a fresh handle initialized in probe mode with
control granted. -/
theorem probe_contract_witness :
    AudioEffect.fresh.state = LifecycleState.UNINITIALIZED ∧
    (((AudioEffect.fresh.set false false 0 false true 3 BrokerResult.granted).1 =
        Status.NO_ERROR ∨
      (AudioEffect.fresh.set false false 0 false true 3 BrokerResult.granted).1 =
        Status.ALREADY_EXISTS) ∧
     ((AudioEffect.fresh.set false false 0 false true 3 BrokerResult.granted).2).hasConnection =
        false ∧
     ((AudioEffect.fresh.set false false 0 false true 3 BrokerResult.granted).2).setEnabled
        true eng0 EngineReply.ok =
      (Status.NO_ERROR,
        (AudioEffect.fresh.set false false 0 false true 3 BrokerResult.granted).2, eng0,
        none) ∧
     ((AudioEffect.fresh.set false false 0 false true 3 BrokerResult.granted).2).setParameter
        { ident := 0, value := [] } eng0 EngineReply.ok =
      (Status.NO_ERROR,
        (AudioEffect.fresh.set false false 0 false true 3 BrokerResult.granted).2, eng0) ∧
     ((AudioEffect.fresh.set false false 0 false true 3 BrokerResult.granted).2).setParameterDeferred
        { ident := 0, value := [] } =
      (Status.NO_ERROR,
        (AudioEffect.fresh.set false false 0 false true 3 BrokerResult.granted).2) ∧
     ((AudioEffect.fresh.set false false 0 false true 3 BrokerResult.granted).2).setParameterCommit
        eng0 EngineReply.ok =
      (Status.NO_ERROR,
        (AudioEffect.fresh.set false false 0 false true 3 BrokerResult.granted).2, eng0) ∧
     ((AudioEffect.fresh.set false false 0 false true 3 BrokerResult.granted).2).command
        0 [] EngineReply.ok =
      (Status.NO_ERROR,
        (AudioEffect.fresh.set false false 0 false true 3 BrokerResult.granted).2) ∧
     ((AudioEffect.fresh.set false false 0 false true 3 BrokerResult.granted).2).getParameter
        { ident := 0, value := [] } = Status.INVALID_OPERATION) :=
  ⟨rfl,
   probe_contract AudioEffect.fresh false false 0 false 3 BrokerResult.granted true
     { ident := 0, value := [] } { ident := 0, value := [] } { ident := 0, value := [] }
     eng0 EngineReply.ok 0 [] rfl rfl (Or.inl rfl)⟩

/-- Claim C3: on any (non-probe) handle in a state other than `RELEASED`,
abrupt loss of the remote connection forces the handle into `FAILED` and
delivers exactly one error event carrying the disconnection code to a
still-registered observer; every subsequent status-returning operation
(`setEnabled`, `setParameter`, `setParameterDeferred`,
`setParameterCommit`, `getParameter`, `command`) returns `DEAD_OBJECT`,
while `release()` still succeeds as a purely local cleanup. -/
theorem disconnect_forces_failed (h : AudioEffect) (b : Bool)
    (e1 e2 e3 : ParamEntry) (eng : Engine) (rep : EngineReply) (code : Nat)
    (d : List Nat)
    (hnr : h.state ≠ LifecycleState.RELEASED) (hp : h.mProbe = false) :
    ((h.binderDied).1).state = LifecycleState.FAILED ∧
    (h.mCallbackAlive = true →
      (h.binderDied).2 = [Event.error Status.DEAD_OBJECT]) ∧
    ((h.binderDied).1.setEnabled b eng rep).1 = Status.DEAD_OBJECT ∧
    ((h.binderDied).1.setParameter e1 eng rep).1 = Status.DEAD_OBJECT ∧
    ((h.binderDied).1.setParameterDeferred e2).1 = Status.DEAD_OBJECT ∧
    ((h.binderDied).1.setParameterCommit eng rep).1 = Status.DEAD_OBJECT ∧
    (h.binderDied).1.getParameter e3 = Status.DEAD_OBJECT ∧
    ((h.binderDied).1.command code d rep).1 = Status.DEAD_OBJECT ∧
    ((h.binderDied).1.release).1 = Status.NO_ERROR ∧
    (((h.binderDied).1.release).2).state = LifecycleState.RELEASED := by
  simp [AudioEffect.binderDied, hnr, hp, AudioEffect.setEnabled,
    AudioEffect.setParameter, AudioEffect.setParameterDeferred,
    AudioEffect.setParameterCommit, AudioEffect.getParameter,
    AudioEffect.command, AudioEffect.release]

/-- Witness for C3 at a concrete controlling handle with a live
observer. -/
theorem disconnect_forces_failed_witness :
    ctrlHandle.state ≠ LifecycleState.RELEASED ∧
    ctrlHandle.mProbe = false ∧
    (((ctrlHandle.binderDied).1).state = LifecycleState.FAILED ∧
     (ctrlHandle.mCallbackAlive = true →
       (ctrlHandle.binderDied).2 = [Event.error Status.DEAD_OBJECT]) ∧
     ((ctrlHandle.binderDied).1.setEnabled true eng0 EngineReply.ok).1 =
        Status.DEAD_OBJECT ∧
     ((ctrlHandle.binderDied).1.setParameter { ident := 0, value := [] } eng0
        EngineReply.ok).1 = Status.DEAD_OBJECT ∧
     ((ctrlHandle.binderDied).1.setParameterDeferred
        { ident := 0, value := [] }).1 = Status.DEAD_OBJECT ∧
     ((ctrlHandle.binderDied).1.setParameterCommit eng0 EngineReply.ok).1 =
        Status.DEAD_OBJECT ∧
     (ctrlHandle.binderDied).1.getParameter { ident := 0, value := [] } =
        Status.DEAD_OBJECT ∧
     ((ctrlHandle.binderDied).1.command 0 [] EngineReply.ok).1 =
        Status.DEAD_OBJECT ∧
     ((ctrlHandle.binderDied).1.release).1 = Status.NO_ERROR ∧
     (((ctrlHandle.binderDied).1.release).2).state = LifecycleState.RELEASED) :=
  ⟨by decide, rfl,
   disconnect_forces_failed ctrlHandle true { ident := 0, value := [] }
     { ident := 0, value := [] } { ident := 0, value := [] } eng0 EngineReply.ok 0 []
     (by decide) rfl⟩

/-- Claim C5, counterexample to the claim as stated ("for every handle,
`setEnabled` fails with `InvalidState` when the handle is not
CONTROLLING ..."): a probe handle that is `NON_CONTROLLING` returns
success as a no-op (probe contract, header lines 416-419), and a `FAILED`
handle returns `DEAD_OBJECT`, not `INVALID_OPERATION`. -/
theorem setEnabled_gating_counterexample :
    probeHandle.state ≠ LifecycleState.CONTROLLING ∧
    (probeHandle.setEnabled true eng0 EngineReply.ok).1 = Status.NO_ERROR ∧
    Status.NO_ERROR ≠ Status.INVALID_OPERATION ∧
    failedHandle.state ≠ LifecycleState.CONTROLLING ∧
    (failedHandle.setEnabled true eng0 EngineReply.ok).1 = Status.DEAD_OBJECT ∧
    Status.DEAD_OBJECT ≠ Status.INVALID_OPERATION := by
  decide

/-- Claim C5 as amended: on every non-probe handle not in `FAILED`,
`setEnabled` fails with `INVALID_OPERATION` when the handle is not
`CONTROLLING` or when the requested state equals the cached state, and in
that failure case the engine's enabled flag is untouched; on success
(controlling handle, real transition, engine acknowledges) the engine
flag changes and an enable-status broadcast is emitted whose delivery
makes every handle attached to the instance cache the new state.  (Probe
handles no-op with success; `FAILED` handles return `DEAD_OBJECT`.) -/
theorem setEnabled_gating (h : AudioEffect) (b : Bool) (eng : Engine)
    (rep : EngineReply) (others : List AudioEffect)
    (hp : h.mProbe = false) (hf : h.state ≠ LifecycleState.FAILED) :
    ((h.state ≠ LifecycleState.CONTROLLING ∨ h.mEnabled = b) →
      h.setEnabled b eng rep = (Status.INVALID_OPERATION, h, eng, none)) ∧
    (h.state = LifecycleState.CONTROLLING → h.mEnabled ≠ b →
      rep = EngineReply.ok →
      (h.setEnabled b eng rep).1 = Status.NO_ERROR ∧
      (h.setEnabled b eng rep).2.1.mEnabled = b ∧
      (h.setEnabled b eng rep).2.2.1 = { eng with enabled := b } ∧
      (h.setEnabled b eng rep).2.2.2 = some b ∧
      (deliverEnableStatus b others).map AudioEffect.mEnabled =
        others.map (fun _ => b)) := by
  constructor
  · intro hfail
    by_cases hc : h.state = LifecycleState.CONTROLLING
    · rcases hfail with hnc | heq
      · exact absurd hc hnc
      · simp [AudioEffect.setEnabled, hp, hf, hc, heq]
    · simp [AudioEffect.setEnabled, hp, hf, hc]
  · intro hc hne hrep
    subst hrep
    refine ⟨?_, ?_, ?_, ?_, deliver_sets_cache b others⟩ <;>
      simp [AudioEffect.setEnabled, hp, hf, hc, hne]

/-- Witness for C5 (amended) at a concrete controlling handle toggling
from disabled to enabled, broadcast to one attached handle. -/
theorem setEnabled_gating_witness :
    ctrlHandle.mProbe = false ∧
    ctrlHandle.state ≠ LifecycleState.FAILED ∧
    (((ctrlHandle.state ≠ LifecycleState.CONTROLLING ∨ ctrlHandle.mEnabled = true) →
       ctrlHandle.setEnabled true eng0 EngineReply.ok =
         (Status.INVALID_OPERATION, ctrlHandle, eng0, none)) ∧
     (ctrlHandle.state = LifecycleState.CONTROLLING → ctrlHandle.mEnabled ≠ true →
       EngineReply.ok = EngineReply.ok →
       (ctrlHandle.setEnabled true eng0 EngineReply.ok).1 = Status.NO_ERROR ∧
       (ctrlHandle.setEnabled true eng0 EngineReply.ok).2.1.mEnabled = true ∧
       (ctrlHandle.setEnabled true eng0 EngineReply.ok).2.2.1 =
         { eng0 with enabled := true } ∧
       (ctrlHandle.setEnabled true eng0 EngineReply.ok).2.2.2 = some true ∧
       (deliverEnableStatus true [AudioEffect.fresh]).map AudioEffect.mEnabled =
         [AudioEffect.fresh].map (fun _ => true))) :=
  ⟨rfl, by decide,
   setEnabled_gating ctrlHandle true eng0 EngineReply.ok [AudioEffect.fresh] rfl
     (by decide)⟩

/-- Claim C6: `getEnabled()` returns the cached enable state, reading
only the handle (its definition takes no engine), and the cache changes
only through a successful local `setEnabled` or an incoming enable-status
event: any operation that changed the cache is one of those two, and the
new cache value is the state that operation carried. -/
theorem enabled_cache (h : AudioEffect) (op : Op) (eng : Engine)
    (hch : (step h op eng).mEnabled ≠ h.mEnabled) :
    h.getEnabled = h.mEnabled ∧
    ((∃ b rep, op = Op.opSetEnabled b rep ∧
        (h.setEnabled b eng rep).1 = Status.NO_ERROR ∧
        (step h op eng).mEnabled = b) ∨
     (∃ b, op = Op.opEnableStatusChanged b ∧ (step h op eng).mEnabled = b)) := by
  refine ⟨rfl, ?_⟩
  cases op with
  | opSet tn un p cb pr nid r =>
      exact absurd (set_preserves_enabled h tn un p cb pr nid r) hch
  | opSetEnabled b rep =>
      exact Or.inl ⟨b, rep, rfl, (setEnabled_cache_change h b eng rep hch).1,
        (setEnabled_cache_change h b eng rep hch).2⟩
  | opSetParameter e rep =>
      exact absurd (congrArg AudioEffect.mEnabled
        (setParameter_preserves_handle h e eng rep)) hch
  | opSetParameterDeferred e =>
      exact absurd (setParameterDeferred_preserves_enabled h e) hch
  | opSetParameterCommit rep =>
      exact absurd (setParameterCommit_preserves_enabled h eng rep) hch
  | opCommand code d rep =>
      exact absurd (congrArg AudioEffect.mEnabled
        (command_preserves_handle h code d rep)) hch
  | opRelease =>
      exact absurd (release_preserves_enabled h) hch
  | opBinderDied =>
      exact absurd (binderDied_preserves_enabled h) hch
  | opControlStatusChanged g =>
      exact absurd (controlStatusChanged_preserves_enabled h g) hch
  | opEnableStatusChanged b =>
      exact Or.inr ⟨b, rfl, rfl⟩
  | opCommandExecuted code d rp =>
      exact absurd rfl hch
  | opFramesProcessed n =>
      exact absurd rfl hch

/-- Witness for C6: an incoming enable-status event on a fresh handle
changes the cache from `false` to `true`. -/
theorem enabled_cache_witness :
    (step AudioEffect.fresh (Op.opEnableStatusChanged true) eng0).mEnabled ≠
      AudioEffect.fresh.mEnabled ∧
    (AudioEffect.fresh.getEnabled = AudioEffect.fresh.mEnabled ∧
     ((∃ b rep, Op.opEnableStatusChanged true = Op.opSetEnabled b rep ∧
         (AudioEffect.fresh.setEnabled b eng0 rep).1 = Status.NO_ERROR ∧
         (step AudioEffect.fresh (Op.opEnableStatusChanged true) eng0).mEnabled = b) ∨
      (∃ b, Op.opEnableStatusChanged true = Op.opEnableStatusChanged b ∧
         (step AudioEffect.fresh (Op.opEnableStatusChanged true) eng0).mEnabled = b))) :=
  ⟨by decide,
   enabled_cache AudioEffect.fresh (Op.opEnableStatusChanged true) eng0 (by decide)⟩

/-- Claim C9: for every incoming event kind (control-status,
enable-status, command-executed, frames-processed, binder death), when
the relay's weak reference to the handle no longer resolves, dispatch
leaves everything unchanged, delivers nothing, and still reports
`binder::Status::ok()` to the sender; and when the handle's weak
reference to its observer no longer resolves, the handler updates only
its local caches and delivers no observer event, without error.  Both
references are non-owning (embedded as optional values), so dispatch
never extends the target's lifetime. -/
theorem weak_dispatch (c : EffectClient) (h : AudioEffect) (g b : Bool)
    (code : Int) (d rp : List Nat) (n : Int) :
    (c.mEffect = none →
      c.controlStatusChanged g = (BinderStatus.ok, c, []) ∧
      c.enableStatusChanged b = (BinderStatus.ok, c, []) ∧
      c.commandExecuted code d rp = (BinderStatus.ok, c, []) ∧
      c.framesProcessed n = (BinderStatus.ok, c, []) ∧
      c.binderDied = (c, [])) ∧
    (h.mCallbackAlive = false →
      (h.controlStatusChanged g).2 = [] ∧
      (h.enableStatusChanged b).2 = [] ∧
      (h.commandExecuted code d rp).2 = [] ∧
      (h.framesProcessed n).2 = [] ∧
      (h.binderDied).2 = []) := by
  constructor
  · intro hcn
    refine ⟨?_, ?_, ?_, ?_, ?_⟩ <;>
      simp [EffectClient.controlStatusChanged, EffectClient.enableStatusChanged,
        EffectClient.commandExecuted, EffectClient.framesProcessed,
        EffectClient.binderDied, hcn]
  · intro hcb
    refine ⟨?_, ?_, ?_, ?_, ?_⟩ <;>
      first
      | simp [AudioEffect.controlStatusChanged, AudioEffect.enableStatusChanged,
          AudioEffect.commandExecuted, AudioEffect.framesProcessed, hcb]
      | (unfold AudioEffect.binderDied; split <;> simp [hcb])

/-- Witness for C9: a relay whose handle is gone and a handle whose
observer is gone. -/
theorem weak_dispatch_witness :
    ({ mEffect := none : EffectClient }.mEffect = none →
      EffectClient.controlStatusChanged { mEffect := none } true =
        (BinderStatus.ok, { mEffect := none }, []) ∧
      EffectClient.enableStatusChanged { mEffect := none } false =
        (BinderStatus.ok, { mEffect := none }, []) ∧
      EffectClient.commandExecuted { mEffect := none } 0 [] [] =
        (BinderStatus.ok, { mEffect := none }, []) ∧
      EffectClient.framesProcessed { mEffect := none } 0 =
        (BinderStatus.ok, { mEffect := none }, []) ∧
      EffectClient.binderDied { mEffect := none } = ({ mEffect := none }, [])) ∧
    (AudioEffect.fresh.mCallbackAlive = false →
      (AudioEffect.fresh.controlStatusChanged true).2 = [] ∧
      (AudioEffect.fresh.enableStatusChanged false).2 = [] ∧
      (AudioEffect.fresh.commandExecuted 0 [] []).2 = [] ∧
      (AudioEffect.fresh.framesProcessed 0).2 = [] ∧
      (AudioEffect.fresh.binderDied).2 = []) :=
  weak_dispatch { mEffect := none } AudioEffect.fresh true false 0 [] [] 0

end AudioEffectModel
